import Mathlib

/-!
Verification of the multi-provider album-search core of the `music-search`
repository (`src/lib/musicSearch.ts`).

The TypeScript source performs network I/O through `fetch`; the shallow
embedding replaces every `fetch` by a value of type `HttpResponse β` drawn
from an explicit environment, where `β` is the parsed JSON shape the code
reads from that endpoint.  A JSON field the code accesses unguarded is a
required field of the corresponding structure (accessing it cannot fail in
the model, exactly as the happy path of the code); a field the code guards
(optional chaining, truthiness tests) is an `Option`.  A thrown JS exception
is an `Except.error` carrying either the `Error` message the code constructs
(`JsError.thrown`) or a `TypeError` from an access on `undefined`
(`JsError.typeError`).
-/

deriving instance DecidableEq for Except

namespace MusicSearch

/-- JS truthiness of a string-valued JSON field: `undefined`/`null` and the
empty string are falsy, every other string is truthy. -/
def jsTruthy : Option String → Bool
  | some s => s != ""
  | none => false

/-- The `for … of … if (x) { …; break }` first-preview scan used by all three
adapters: the first truthy element of the list, `none` when there is none. -/
def firstTruthy : List (Option String) → Option String
  | [] => none
  | p :: rest => if jsTruthy p then p else firstTruthy rest

/-- JS `s.split("-")` for the one-character separator `'-'`, on the character
list of the string.  Always returns a non-empty list of segments. -/
def splitOnDash : List Char → List (List Char)
  | [] => [[]]
  | c :: cs =>
    let rest := splitOnDash cs
    if c = '-' then [] :: rest
    else
      match rest with
      | [] => [[c]]
      | h :: t => (c :: h) :: t

/-- JS `s.split("-")[0]`: the leading segment of the release-date string. -/
def splitDashHead (s : String) : String :=
  ⟨(splitOnDash s.data).headD []⟩

/-- JS `Array.prototype.map((x, index) => …)` with the running index made
explicit, as used by the Deezer tracklist mapping. -/
def mapWithIndexFrom (f : Nat → α → β) : Nat → List α → List β
  | _, [] => []
  | i, x :: xs => f i x :: mapWithIndexFrom f (i + 1) xs

/-- Does `l` start with the pattern `pat`? -/
def lstartsWith : List Char → List Char → Bool
  | [], _ => true
  | _ :: _, [] => false
  | p :: ps, c :: cs => p = c && lstartsWith ps cs

/-- Does the pattern `pat` occur contiguously anywhere in `l`? -/
def loccurs (pat : List Char) : List Char → Bool
  | [] => lstartsWith pat []
  | c :: cs => lstartsWith pat (c :: cs) || loccurs pat cs

/-- JS `String.prototype.replace(pat, rep)` with a string pattern: only the
FIRST occurrence of `pat` is replaced. -/
def replaceFirstL (pat rep : List Char) : List Char → List Char
  | [] => if lstartsWith pat [] then rep else []
  | c :: cs =>
    if lstartsWith pat (c :: cs) then rep ++ (c :: cs).drop pat.length
    else c :: replaceFirstL pat rep cs

/-- JS `String.prototype.replace` on `String`. -/
def jsReplace (s pat rep : String) : String :=
  ⟨replaceFirstL pat.data rep.data s.data⟩

/-- Uppercase hexadecimal digit for `n < 16`. -/
def hexDigit (n : Nat) : Char :=
  if n < 10 then Char.ofNat (48 + n) else Char.ofNat (55 + n)

/-- Percent-escape of one byte, e.g. `32 ↦ "%20"`. -/
def pctByte (b : Nat) : List Char :=
  ['%', hexDigit (b / 16), hexDigit (b % 16)]

/-- UTF-8 bytes of one code point. -/
def utf8Bytes (c : Char) : List Nat :=
  let n := c.toNat
  if n < 0x80 then [n]
  else if n < 0x800 then [0xC0 + n / 64, 0x80 + n % 64]
  else if n < 0x10000 then [0xE0 + n / 4096, 0x80 + (n / 64) % 64, 0x80 + n % 64]
  else [0xF0 + n / 262144, 0x80 + (n / 4096) % 64, 0x80 + (n / 64) % 64, 0x80 + n % 64]

/-- Characters `encodeURIComponent` leaves unescaped. -/
def isURIUnescaped (c : Char) : Bool :=
  ('A' ≤ c && c ≤ 'Z') || ('a' ≤ c && c ≤ 'z') || ('0' ≤ c && c ≤ '9') ||
  c = '-' || c = '_' || c = '.' || c = '!' || c = '~' || c = '*' ||
  c = '\'' || c = '(' || c = ')'

/-- Concatenating map over a list (JS side-effect-free flat map). -/
def concatMap (f : α → List β) : List α → List β
  | [] => []
  | x :: xs => f x ++ concatMap f xs

/-- JS `encodeURIComponent`. -/
def encodeURIComponent (s : String) : String :=
  ⟨concatMap (fun c => if isURIUnescaped c then [c] else concatMap pctByte (utf8Bytes c)) s.data⟩

/-- An HTTP response as the adapters see it: the `ok`/`status`/`statusText`
fields of the `fetch` response plus the parsed JSON body of shape `β`. -/
structure HttpResponse (β : Type) where
  ok : Bool
  status : Nat
  statusText : String
  body : β
deriving DecidableEq

/-- A thrown JS exception: an explicit `throw new Error(message)`, or the
`TypeError` raised by a property access on `undefined`. -/
inductive JsError where
  | thrown (message : String)
  | typeError (message : String)
deriving DecidableEq

/-- Unified Track of the data model (§3 of the spec). -/
structure Track where
  trackNumber : Nat
  name : String
  duration : Nat
deriving DecidableEq

/-- Unified Album of the data model (§3 of the spec). -/
structure Album where
  name : String
  artist : String
  artistUrl : Option String
  year : String
  coverUrl : Option String
  albumUrl : String
  previewUrl : Option String
  tracklist : List Track
deriving DecidableEq

/-- The aggregator's result shape: exactly the three platform keys. -/
structure SearchResults where
  spotify : List Album
  appleMusic : List Album
  deezer : List Album
deriving DecidableEq

/-- `Promise.all` over per-item fallible detail fetches: every item must
succeed, any failure rejects the whole batch. -/
def mapExcept (f : α → Except JsError β) : List α → Except JsError (List β)
  | [] => .ok []
  | x :: xs =>
    match f x with
    | .error e => .error e
    | .ok b =>
      match mapExcept f xs with
      | .error e => .error e
      | .ok bs => .ok (b :: bs)

/-! ### Spotify payload shapes (fields the code reads) -/

structure SpotifyTokenBody where
  access_token : Option String
deriving DecidableEq

structure SpotifyExternalUrls where
  spotify : String
deriving DecidableEq

structure SpotifyArtist where
  name : String
  external_urls : SpotifyExternalUrls
deriving DecidableEq

structure SpotifyImage where
  url : String
deriving DecidableEq

structure SpotifyApiTrack where
  track_number : Nat
  name : String
  duration_ms : Nat
  preview_url : Option String
deriving DecidableEq

structure SpotifyTracks where
  items : List SpotifyApiTrack
deriving DecidableEq

structure SpotifyAlbumBody where
  name : String
  artists : List SpotifyArtist
  release_date : String
  images : List SpotifyImage
  external_urls : SpotifyExternalUrls
  tracks : SpotifyTracks
deriving DecidableEq

structure SpotifySearchItem where
  id : String
deriving DecidableEq

structure SpotifyAlbumsContainer where
  items : List SpotifySearchItem
deriving DecidableEq

structure SpotifySearchBody where
  albums : Option SpotifyAlbumsContainer
deriving DecidableEq

/-! ### Apple Music payload shapes -/

structure ApplePreview where
  url : String
deriving DecidableEq

structure AppleArtwork where
  url : String
deriving DecidableEq

structure AppleTrackAttributes where
  trackNumber : Nat
  name : String
  durationInMillis : Nat
  previews : Option (List ApplePreview)
deriving DecidableEq

structure AppleApiTrack where
  attributes : AppleTrackAttributes
deriving DecidableEq

structure AppleTracks where
  data : List AppleApiTrack
deriving DecidableEq

structure AppleArtistRef where
  href : String
deriving DecidableEq

structure AppleArtists where
  data : Option (List AppleArtistRef)
deriving DecidableEq

structure AppleRelationships where
  tracks : Option AppleTracks
  artists : Option AppleArtists
deriving DecidableEq

structure AppleAlbumAttributes where
  name : String
  artistName : String
  releaseDate : String
  artwork : AppleArtwork
  url : String
deriving DecidableEq

structure AppleAlbumData where
  attributes : AppleAlbumAttributes
  relationships : Option AppleRelationships
deriving DecidableEq

structure AppleAlbumBody where
  data : List AppleAlbumData
deriving DecidableEq

structure AppleSearchItem where
  id : String
deriving DecidableEq

structure AppleAlbumsContainer where
  data : Option (List AppleSearchItem)
deriving DecidableEq

structure AppleResults where
  albums : Option AppleAlbumsContainer
deriving DecidableEq

structure AppleSearchBody where
  results : Option AppleResults
deriving DecidableEq

/-! ### Deezer payload shapes -/

structure DeezerArtist where
  name : String
  id : Nat
deriving DecidableEq

structure DeezerApiTrack where
  title : String
  duration : Nat
  preview : Option String
deriving DecidableEq

structure DeezerTracks where
  data : List DeezerApiTrack
deriving DecidableEq

structure DeezerAlbumBody where
  title : String
  artist : DeezerArtist
  release_date : Option String
  cover_medium : String
  link : String
  tracks : Option DeezerTracks
deriving DecidableEq

structure DeezerSearchItem where
  id : Nat
deriving DecidableEq

structure DeezerSearchBody where
  data : Option (List DeezerSearchItem)
deriving DecidableEq

/-! ### Request environments

Each adapter's network calls are resolved through an environment mapping the
request (search URL, or detail-call album id) to the response received. -/

structure SpotifyEnv where
  searchResp : String → HttpResponse SpotifySearchBody
  detailResp : String → HttpResponse SpotifyAlbumBody

structure AppleEnv where
  searchResp : String → HttpResponse (Option AppleSearchBody)
  detailResp : String → HttpResponse AppleAlbumBody

structure DeezerEnv where
  searchResp : String → HttpResponse DeezerSearchBody
  detailResp : Nat → HttpResponse DeezerAlbumBody

structure AggEnv where
  spotifyTokenResp : HttpResponse SpotifyTokenBody
  appleSignResult : Except String String
  spotify : SpotifyEnv
  apple : AppleEnv
  deezer : DeezerEnv

/-! ### Credential provider -/

/-- Message of the error thrown when the Spotify token response carries no
access token (string concatenation from the source flattened). -/
def spotifyAuthErrorMessage : String :=
  "Spotify Access Token konnte nicht generiert werden. " ++
  "Stelle sicher, dass du die Client ID und Client Secret korrekt " ++
  "eingestellt hast."

/-- `getSpotifyAccessToken`:  the token-endpoint response body is parsed and
`data.access_token` is returned when truthy, otherwise an error is thrown
(the response's HTTP status is never consulted here). -/
def getSpotifyAccessToken (resp : HttpResponse SpotifyTokenBody) : Except JsError String :=
  match resp.body.access_token with
  | some t => if t != "" then .ok t else .error (.thrown spotifyAuthErrorMessage)
  | none => .error (.thrown spotifyAuthErrorMessage)

/-- `getAppleMusicToken`: reading the private key and signing the JWT are
external effects, summarised by `signResult`; any exception in the `try`
block is re-thrown with the `Fehler beim Generieren…` message. -/
def getAppleMusicToken (signResult : Except String String) : Except JsError String :=
  match signResult with
  | .ok token => .ok token
  | .error msg => .error (.thrown ("Fehler beim Generieren des Apple Music Tokens: " ++ msg))

/-! ### Query building and search URLs -/

/-- The `const query = albumName ? enc(artist) + " " + enc(album) : enc(artist)`
expression, which appears verbatim in all three search functions. -/
def buildQuery (artistName albumName : String) : String :=
  if albumName != "" then
    encodeURIComponent artistName ++ " " ++ encodeURIComponent albumName
  else
    encodeURIComponent artistName

/-- URL of the Spotify catalog search request. -/
def spotifySearchUrl (artistName albumName : String) : String :=
  "https://api.spotify.com/v1/search?q=" ++ buildQuery artistName albumName ++ "&type=album&limit=5"

/-- URL of the Apple Music catalog search request. -/
def appleSearchUrl (artistName albumName : String) : String :=
  "https://api.music.apple.com/v1/catalog/de/search?term=" ++ buildQuery artistName albumName ++
  "&types=albums&limit=5"

/-- URL of the Deezer catalog search request. -/
def deezerSearchUrl (artistName albumName : String) : String :=
  "https://api.deezer.com/search/album?q=" ++ buildQuery artistName albumName ++ "&limit=5"

/-! ### Spotify adapter -/

/-- `getSpotifyAlbumDetails`: non-ok detail response throws; otherwise the
album payload is mapped to a unified Album.  `album.artists[0].name` on an
empty artists array is a `TypeError`. -/
def getSpotifyAlbumDetails (resp : HttpResponse SpotifyAlbumBody) : Except JsError Album :=
  if !resp.ok then
    .error (.thrown ("Spotify API returned an error: " ++ resp.statusText))
  else
    let album := resp.body
    match album.artists with
    | [] => .error (.typeError "Cannot read properties of undefined (reading name)")
    | artist0 :: _ =>
      let tracklist := album.tracks.items.map fun track =>
        { trackNumber := track.track_number
          name := track.name
          duration := track.duration_ms : Track }
      let previewUrl := firstTruthy (album.tracks.items.map (fun track => track.preview_url))
      .ok
        { name := album.name
          artist := artist0.name
          artistUrl := some artist0.external_urls.spotify
          year := splitDashHead album.release_date
          coverUrl := (album.images.head?).map (fun img => img.url)
          albumUrl := album.external_urls.spotify
          previewUrl := previewUrl
          tracklist := tracklist }

/-- `searchSpotifyAlbums`: the search response's HTTP status is NOT checked;
the body is parsed directly and `data.albums.items` is read (a missing
`albums` container is a `TypeError`), then each hit's detail call runs. -/
def searchSpotifyAlbums (artistName albumName accessToken : String) (env : SpotifyEnv) :
    Except JsError (List Album) :=
  let response := env.searchResp (spotifySearchUrl artistName albumName)
  match response.body.albums with
  | none => .error (.typeError "Cannot read properties of undefined (reading items)")
  | some container =>
    mapExcept (fun item => getSpotifyAlbumDetails (env.detailResp item.id)) container.items

/-! ### Apple Music adapter -/

/-- The `album.attributes.artwork.url.replace("{w}", "300").replace("{h}", "300")`
cover mapping. -/
def appleCoverUrl (artworkUrl : String) : String :=
  jsReplace (jsReplace artworkUrl "{w}" "300") "{h}" "300"

/-- The `track.attributes?.previews?.[0]?.url` chain of one Apple track
(`attributes` is accessed unguarded elsewhere, hence required). -/
def applePreviewField (track : AppleApiTrack) : Option String :=
  match track.attributes.previews with
  | some (p :: _) => some p.url
  | _ => none

/-- The `album.relationships?.artists?.data?.[0]?.href ? prefix + href : null`
artist-URL mapping. -/
def appleArtistUrl (album : AppleAlbumData) : Option String :=
  match album.relationships with
  | none => none
  | some rel =>
    match rel.artists with
    | none => none
    | some artists =>
      match artists.data with
      | none => none
      | some refs =>
        match refs.head? with
        | none => none
        | some ref =>
          if ref.href != "" then some ("https://music.apple.com" ++ ref.href) else none

/-- `getAppleMusicAlbumDetails`: non-ok detail response throws; then
`albumResponse.data[0]` is taken (a `TypeError` on an empty `data` array) and
mapped to a unified Album. -/
def getAppleMusicAlbumDetails (resp : HttpResponse AppleAlbumBody) : Except JsError Album :=
  if !resp.ok then
    .error (.thrown ("Apple Music API request failed: " ++ resp.statusText))
  else
    match resp.body.data with
    | [] => .error (.typeError "Cannot read properties of undefined (reading relationships)")
    | album :: _ =>
      let tracklist :=
        match album.relationships with
        | some rel =>
          match rel.tracks with
          | some ts => ts.data.map fun track =>
              { trackNumber := track.attributes.trackNumber
                name := track.attributes.name
                duration := track.attributes.durationInMillis : Track }
          | none => []
        | none => []
      let previewUrl :=
        match album.relationships with
        | some rel =>
          match rel.tracks with
          | some ts => firstTruthy (ts.data.map applePreviewField)
          | none => none
        | none => none
      .ok
        { name := album.attributes.name
          artist := album.attributes.artistName
          artistUrl := appleArtistUrl album
          year := splitDashHead album.attributes.releaseDate
          coverUrl := some (appleCoverUrl album.attributes.artwork.url)
          albumUrl := album.attributes.url
          previewUrl := previewUrl
          tracklist := tracklist }

/-- `searchAppleMusicAlbums`: non-ok search response throws; a `null` body,
missing `results`, missing `results.albums` or missing `results.albums.data`
throws `Unexpected API response structure`; then each hit's detail call runs.
An empty `data` array passes the checks and yields an empty album list. -/
def searchAppleMusicAlbums (artistName albumName developerToken : String) (env : AppleEnv) :
    Except JsError (List Album) :=
  let response := env.searchResp (appleSearchUrl artistName albumName)
  if !response.ok then
    .error (.thrown ("Apple Music API request failed: " ++ response.statusText))
  else
    match response.body with
    | none => .error (.thrown "Unexpected API response structure")
    | some data =>
      match data.results with
      | none => .error (.thrown "Unexpected API response structure")
      | some results =>
        match results.albums with
        | none => .error (.thrown "Unexpected API response structure")
        | some albumsC =>
          match albumsC.data with
          | none => .error (.thrown "Unexpected API response structure")
          | some items =>
            mapExcept (fun item => getAppleMusicAlbumDetails (env.detailResp item.id)) items

/-! ### Deezer adapter -/

/-- `getDeezerAlbumDetails`: non-ok detail response throws; the tracklist is
numbered by 1-based position (`index + 1`) and each native `duration` in
seconds is multiplied by 1000; a falsy `release_date` yields `"Unknown"`. -/
def getDeezerAlbumDetails (resp : HttpResponse DeezerAlbumBody) : Except JsError Album :=
  if !resp.ok then
    .error (.thrown ("Deezer API request failed: " ++ resp.statusText))
  else
    let album := resp.body
    let tracklist :=
      match album.tracks with
      | some ts => mapWithIndexFrom (fun index track =>
          { trackNumber := index + 1
            name := track.title
            duration := track.duration * 1000 : Track }) 0 ts.data
      | none => []
    let previewUrl :=
      match album.tracks with
      | some ts => firstTruthy (ts.data.map (fun track => track.preview))
      | none => none
    .ok
      { name := album.title
        artist := album.artist.name
        artistUrl := some ("https://www.deezer.com/artist/" ++ toString album.artist.id)
        year :=
          match album.release_date with
          | some rd => if rd != "" then splitDashHead rd else "Unknown"
          | none => "Unknown"
        coverUrl := some album.cover_medium
        albumUrl := album.link
        previewUrl := previewUrl
        tracklist := tracklist }

/-- `searchDeezerAlbums`: non-ok search response throws; a missing `data`
array or an empty one throws `Keine Alben gefunden`; then each hit's detail
call runs. -/
def searchDeezerAlbums (artistName albumName : String) (env : DeezerEnv) :
    Except JsError (List Album) :=
  let response := env.searchResp (deezerSearchUrl artistName albumName)
  if !response.ok then
    .error (.thrown ("Deezer API request failed: " ++ response.statusText))
  else
    match response.body.data with
    | none => .error (.thrown "Keine Alben gefunden")
    | some items =>
      if items.length = 0 then .error (.thrown "Keine Alben gefunden")
      else mapExcept (fun item => getDeezerAlbumDetails (env.detailResp item.id)) items

/-! ### Aggregator -/

/-- `searchAllPlatforms`: acquires the Spotify token, then the Apple Music
token; a failure of either rethrows before any adapter search runs.  Then the
three searches run (`Promise.all`, modelled sequentially: all must succeed,
any failure fails the whole call) and each platform's list is cut to 5 by
`slice(0, 5)`. -/
def searchAllPlatforms (artistName albumName : String) (env : AggEnv) :
    Except JsError SearchResults :=
  match getSpotifyAccessToken env.spotifyTokenResp with
  | .error e => .error e
  | .ok spotifyAccessToken =>
    match getAppleMusicToken env.appleSignResult with
    | .error e => .error e
    | .ok appleMusicToken =>
      if spotifyAccessToken = "" || appleMusicToken = "" then
        .error (.thrown "API keys are missing. Check your environment variables.")
      else
        match searchSpotifyAlbums artistName albumName spotifyAccessToken env.spotify with
        | .error e => .error e
        | .ok spotifyAlbums =>
          match searchAppleMusicAlbums artistName albumName appleMusicToken env.apple with
          | .error e => .error e
          | .ok appleAlbums =>
            match searchDeezerAlbums artistName albumName env.deezer with
            | .error e => .error e
            | .ok deezerAlbums =>
              .ok
                { spotify := spotifyAlbums.take 5
                  appleMusic := appleAlbums.take 5
                  deezer := deezerAlbums.take 5 }

/-! ### Spec-side definitions (used to compare code behaviour with the
spec's wording in refinement-style claims) -/

/-- Stated from the spec's words: the preview of the first track (in native
order) whose preview field is non-empty, or null if none. -/
def specFirstPreview (ps : List (Option String)) : Option String :=
  (ps.find? jsTruthy).getD none

/-- Stated from the spec's words: the segment of the release-date string
before the first `-` separator. -/
def specYearSegment (s : String) : String :=
  ⟨s.data.takeWhile (fun c => c != '-')⟩

/-- Stated from the spec's words: percent-encoded artist name, a space, and
percent-encoded album name when the album name is non-empty; the
percent-encoded artist name alone when it is absent or empty. -/
def specQuery (artistName albumName : String) : String :=
  if albumName = "" then encodeURIComponent artistName
  else encodeURIComponent artistName ++ " " ++ encodeURIComponent albumName

/-! ### Concrete sample inputs used by the per-claim witnesses and
counterexamples (grouped by the claim that uses them) -/

def c1SearchBody : SpotifySearchBody := ⟨some ⟨[⟨"alb1"⟩]⟩⟩

def c1DetailBody : SpotifyAlbumBody :=
  { name := "Parachutes"
    artists := [⟨"Coldplay", ⟨"https://open.spotify.com/artist/c"⟩⟩]
    release_date := "2000-07-10"
    images := [⟨"https://i.scdn.co/image/cover"⟩]
    external_urls := ⟨"https://open.spotify.com/album/p"⟩
    tracks := ⟨[⟨1, "Yellow", 266000, some "https://p.scdn.co/mp3-preview/y"⟩]⟩ }

/-- A Spotify environment whose catalog search answers HTTP 503 but with a
body that still parses into an albums container. -/
def c1CexEnv : SpotifyEnv :=
  { searchResp := fun _ => ⟨false, 503, "Service Unavailable", c1SearchBody⟩
    detailResp := fun _ => ⟨true, 200, "OK", c1DetailBody⟩ }

def c1CexAlbum : Album :=
  { name := "Parachutes"
    artist := "Coldplay"
    artistUrl := some "https://open.spotify.com/artist/c"
    year := "2000"
    coverUrl := some "https://i.scdn.co/image/cover"
    albumUrl := "https://open.spotify.com/album/p"
    previewUrl := some "https://p.scdn.co/mp3-preview/y"
    tracklist := [⟨1, "Yellow", 266000⟩] }

def c1wSpotifyDetailResp : HttpResponse SpotifyAlbumBody :=
  ⟨false, 500, "Internal Server Error", c1DetailBody⟩

def c1wAppleDetailResp : HttpResponse AppleAlbumBody :=
  ⟨false, 503, "Service Unavailable", ⟨[]⟩⟩

def c1wDeezerBody : DeezerAlbumBody := ⟨"t", ⟨"a", 1⟩, none, "c", "l", none⟩

def c1wDeezerDetailResp : HttpResponse DeezerAlbumBody :=
  ⟨false, 404, "Not Found", c1wDeezerBody⟩

def c1wAppleEnv : AppleEnv :=
  { searchResp := fun _ => ⟨false, 503, "Service Unavailable", none⟩
    detailResp := fun _ => ⟨true, 200, "OK", ⟨[]⟩⟩ }

def c1wDeezerEnv : DeezerEnv :=
  { searchResp := fun _ => ⟨false, 503, "Service Unavailable", ⟨none⟩⟩
    detailResp := fun _ => ⟨true, 200, "OK", c1wDeezerBody⟩ }

/-- A Spotify environment whose search succeeds but whose per-album detail
call answers HTTP 500. -/
def c1wSpotifyPropEnv : SpotifyEnv :=
  { searchResp := fun _ => ⟨true, 200, "OK", ⟨some ⟨[⟨"x1"⟩]⟩⟩⟩
    detailResp := fun _ => ⟨false, 500, "Internal Server Error", c1DetailBody⟩ }

def c2SpBody : SpotifyAlbumBody :=
  { name := "A"
    artists := [⟨"Ar", ⟨"aurl"⟩⟩]
    release_date := "1999-01-01"
    images := []
    external_urls := ⟨"alurl"⟩
    tracks := ⟨[⟨1, "t1", 1000, none⟩, ⟨2, "t2", 2000, some "X"⟩, ⟨3, "t3", 3000, some "Y"⟩]⟩ }

def c2SpResp : HttpResponse SpotifyAlbumBody := ⟨true, 200, "OK", c2SpBody⟩

def c2SpAlbum : Album :=
  { name := "A", artist := "Ar", artistUrl := some "aurl", year := "1999"
    coverUrl := none, albumUrl := "alurl", previewUrl := some "X"
    tracklist := [⟨1, "t1", 1000⟩, ⟨2, "t2", 2000⟩, ⟨3, "t3", 3000⟩] }

def c2ApTracks : AppleTracks :=
  ⟨[⟨⟨1, "a1", 1000, some []⟩⟩, ⟨⟨2, "a2", 2000, some [⟨"PX"⟩]⟩⟩]⟩

def c2ApAlbumData : AppleAlbumData :=
  { attributes := ⟨"AN", "AA", "2010-05-05", ⟨"cov"⟩, "apurl"⟩
    relationships := some ⟨some c2ApTracks, none⟩ }

def c2ApResp : HttpResponse AppleAlbumBody := ⟨true, 200, "OK", ⟨[c2ApAlbumData]⟩⟩

def c2ApAlbum : Album :=
  { name := "AN", artist := "AA", artistUrl := none, year := "2010"
    coverUrl := some "cov", albumUrl := "apurl", previewUrl := some "PX"
    tracklist := [⟨1, "a1", 1000⟩, ⟨2, "a2", 2000⟩] }

def c2DzTracks : DeezerTracks :=
  ⟨[⟨"d1", 100, none⟩, ⟨"d2", 200, some "X"⟩, ⟨"d3", 300, some "Y"⟩]⟩

def c2DzBody : DeezerAlbumBody :=
  ⟨"D", ⟨"DA", 7⟩, some "2015-03-02", "covm", "dlink", some c2DzTracks⟩

def c2DzResp : HttpResponse DeezerAlbumBody := ⟨true, 200, "OK", c2DzBody⟩

def c2DzAlbum : Album :=
  { name := "D", artist := "DA", artistUrl := some "https://www.deezer.com/artist/7"
    year := "2015", coverUrl := some "covm", albumUrl := "dlink", previewUrl := some "X"
    tracklist := [⟨1, "d1", 100000⟩, ⟨2, "d2", 200000⟩, ⟨3, "d3", 300000⟩] }

def c3SpBody : SpotifyAlbumBody :=
  { name := "S3", artists := [⟨"SA", ⟨"su"⟩⟩], release_date := "2003-01-01", images := []
    external_urls := ⟨"sl"⟩, tracks := ⟨[⟨1, "st", 180000, none⟩]⟩ }

def c3SpResp : HttpResponse SpotifyAlbumBody := ⟨true, 200, "OK", c3SpBody⟩

def c3SpAlbum : Album :=
  { name := "S3", artist := "SA", artistUrl := some "su", year := "2003", coverUrl := none
    albumUrl := "sl", previewUrl := none, tracklist := [⟨1, "st", 180000⟩] }

def c3ApTracks : AppleTracks := ⟨[⟨⟨1, "at", 180000, none⟩⟩]⟩

def c3ApAlbumData : AppleAlbumData :=
  { attributes := ⟨"A3", "AA3", "2013-01-01", ⟨"ac"⟩, "al"⟩
    relationships := some ⟨some c3ApTracks, none⟩ }

def c3ApResp : HttpResponse AppleAlbumBody := ⟨true, 200, "OK", ⟨[c3ApAlbumData]⟩⟩

def c3ApAlbum : Album :=
  { name := "A3", artist := "AA3", artistUrl := none, year := "2013", coverUrl := some "ac"
    albumUrl := "al", previewUrl := none, tracklist := [⟨1, "at", 180000⟩] }

def c3DzTracks : DeezerTracks := ⟨[⟨"dt", 180, none⟩]⟩

def c3DzBody : DeezerAlbumBody :=
  ⟨"D3", ⟨"DA3", 9⟩, some "2001-01-01", "dc", "dl", some c3DzTracks⟩

def c3DzResp : HttpResponse DeezerAlbumBody := ⟨true, 200, "OK", c3DzBody⟩

def c3DzAlbum : Album :=
  { name := "D3", artist := "DA3", artistUrl := some "https://www.deezer.com/artist/9"
    year := "2001", coverUrl := some "dc", albumUrl := "dl", previewUrl := none
    tracklist := [⟨1, "dt", 180000⟩] }

def c4SpBody : SpotifyAlbumBody := ⟨"n", [], "2000-01-01", [], ⟨"u"⟩, ⟨[]⟩⟩

def c4DzBody : DeezerAlbumBody := ⟨"t", ⟨"a", 1⟩, none, "c", "l", none⟩

def c4SpotifyEnv : SpotifyEnv :=
  ⟨fun _ => ⟨true, 200, "OK", ⟨none⟩⟩, fun _ => ⟨true, 200, "OK", c4SpBody⟩⟩

def c4AppleEnv : AppleEnv :=
  ⟨fun _ => ⟨true, 200, "OK", none⟩, fun _ => ⟨true, 200, "OK", ⟨[]⟩⟩⟩

def c4DeezerEnv : DeezerEnv :=
  ⟨fun _ => ⟨true, 200, "OK", ⟨none⟩⟩, fun _ => ⟨true, 200, "OK", c4DzBody⟩⟩

/-- Aggregation environment whose Spotify token response carries no access
token. -/
def c4EnvA : AggEnv :=
  ⟨⟨true, 200, "OK", ⟨none⟩⟩, .ok "atok", c4SpotifyEnv, c4AppleEnv, c4DeezerEnv⟩

/-- Aggregation environment whose Apple Music key cannot be read. -/
def c4EnvB : AggEnv :=
  ⟨⟨true, 200, "OK", ⟨some "tok"⟩⟩, .error "ENOENT: no such file", c4SpotifyEnv, c4AppleEnv,
    c4DeezerEnv⟩

def c5SpBody : SpotifyAlbumBody :=
  { name := "SpAlbum", artists := [⟨"SpArtist", ⟨"spa-url"⟩⟩], release_date := "2000-07-10"
    images := [⟨"sp-cover"⟩], external_urls := ⟨"sp-url"⟩
    tracks := ⟨[⟨1, "SpTrack", 200000, some "sp-prev"⟩]⟩ }

def c5SpAlbum : Album :=
  { name := "SpAlbum", artist := "SpArtist", artistUrl := some "spa-url", year := "2000"
    coverUrl := some "sp-cover", albumUrl := "sp-url", previewUrl := some "sp-prev"
    tracklist := [⟨1, "SpTrack", 200000⟩] }

def c5ApData : AppleAlbumData :=
  ⟨⟨"ApAlbum", "ApArtist", "2010-01-01", ⟨"ap-cover"⟩, "ap-url"⟩, none⟩

def c5ApAlbum : Album :=
  { name := "ApAlbum", artist := "ApArtist", artistUrl := none, year := "2010"
    coverUrl := some "ap-cover", albumUrl := "ap-url", previewUrl := none, tracklist := [] }

def c5DzBody : DeezerAlbumBody :=
  ⟨"DzAlbum", ⟨"DzArtist", 42⟩, some "1999-09-09", "dz-cover", "dz-url",
    some ⟨[⟨"DzTrack", 100, some "dz-prev"⟩]⟩⟩

def c5DzAlbum : Album :=
  { name := "DzAlbum", artist := "DzArtist", artistUrl := some "https://www.deezer.com/artist/42"
    year := "1999", coverUrl := some "dz-cover", albumUrl := "dz-url"
    previewUrl := some "dz-prev", tracklist := [⟨1, "DzTrack", 100000⟩] }

/-- Aggregation environment in which every upstream call succeeds. -/
def c5Env : AggEnv :=
  ⟨⟨true, 200, "OK", ⟨some "tok"⟩⟩, .ok "atok",
    ⟨fun _ => ⟨true, 200, "OK", ⟨some ⟨[⟨"sid"⟩]⟩⟩⟩, fun _ => ⟨true, 200, "OK", c5SpBody⟩⟩,
    ⟨fun _ => ⟨true, 200, "OK", some ⟨some ⟨some ⟨some [⟨"aid"⟩]⟩⟩⟩⟩,
      fun _ => ⟨true, 200, "OK", ⟨[c5ApData]⟩⟩⟩,
    ⟨fun _ => ⟨true, 200, "OK", ⟨some [⟨7⟩]⟩⟩, fun _ => ⟨true, 200, "OK", c5DzBody⟩⟩⟩

def c5Result : SearchResults := ⟨[c5SpAlbum], [c5ApAlbum], [c5DzAlbum]⟩

/-- Apple album payload whose artwork template repeats the `{w}` placeholder. -/
def c6AlbumData : AppleAlbumData :=
  ⟨⟨"N6", "A6", "2020-01-01", ⟨"a{w}b{w}c{h}d"⟩, "u6"⟩, none⟩

def c6Resp : HttpResponse AppleAlbumBody := ⟨true, 200, "OK", ⟨[c6AlbumData]⟩⟩

/-- Does the produced album's cover URL still contain a size placeholder? -/
def c6CoverPlaceholderRemains (r : Except JsError Album) : Bool :=
  match r with
  | .ok alb =>
    match alb.coverUrl with
    | some s => loccurs "{w}".data s.data || loccurs "{h}".data s.data
    | none => false
  | .error _ => false

/-- Apple album payload whose artwork template has each placeholder once. -/
def c6wAlbumData : AppleAlbumData :=
  ⟨⟨"N6w", "A6w", "2021-01-01", ⟨"left{w}mid{h}right"⟩, "u6w"⟩, none⟩

def c6wResp : HttpResponse AppleAlbumBody := ⟨true, 200, "OK", ⟨[c6wAlbumData]⟩⟩

def c7RespNone : HttpResponse DeezerAlbumBody :=
  ⟨true, 200, "OK", ⟨"T", ⟨"A", 1⟩, none, "c", "l", none⟩⟩

def c7RespSome : HttpResponse DeezerAlbumBody :=
  ⟨true, 200, "OK", ⟨"T", ⟨"A", 1⟩, some "1987-11-05", "c", "l", none⟩⟩

def c8Tracks : DeezerTracks := ⟨[⟨"A", 10, none⟩, ⟨"B", 20, none⟩, ⟨"C", 30, none⟩]⟩

def c8Resp : HttpResponse DeezerAlbumBody :=
  ⟨true, 200, "OK", ⟨"T8", ⟨"A8", 2⟩, some "1999-01-01", "c", "l", some c8Tracks⟩⟩

def c10DzBody : DeezerAlbumBody := ⟨"t", ⟨"a", 1⟩, none, "c", "l", none⟩

/-- Deezer environment whose search succeeds over HTTP but matches zero
albums. -/
def c10DzEnv : DeezerEnv :=
  ⟨fun _ => ⟨true, 200, "OK", ⟨some []⟩⟩, fun _ => ⟨true, 200, "OK", c10DzBody⟩⟩

def c10SpBody : SpotifyAlbumBody := ⟨"n", [], "2000-01-01", [], ⟨"u"⟩, ⟨[]⟩⟩

/-- Aggregation environment where the tokens and the Spotify and Apple Music
branches succeed but the Deezer search matches zero albums. -/
def c10AggEnv : AggEnv :=
  ⟨⟨true, 200, "OK", ⟨some "tok"⟩⟩, .ok "atok",
    ⟨fun _ => ⟨true, 200, "OK", ⟨some ⟨[]⟩⟩⟩, fun _ => ⟨true, 200, "OK", c10SpBody⟩⟩,
    ⟨fun _ => ⟨true, 200, "OK", some ⟨some ⟨some ⟨some []⟩⟩⟩⟩,
      fun _ => ⟨true, 200, "OK", ⟨[]⟩⟩⟩,
    c10DzEnv⟩

/-! ### Helper lemmas -/

theorem splitOnDash_ne_nil (l : List Char) : splitOnDash l ≠ [] := by
  induction l with
  | nil => simp [splitOnDash]
  | cons c cs ih =>
    simp only [splitOnDash]
    by_cases hc : c = '-'
    · simp [hc]
    · simp only [hc, if_false]
      cases h : splitOnDash cs with
      | nil => simp
      | cons a t => simp

theorem splitOnDash_headD (l : List Char) :
    (splitOnDash l).headD [] = l.takeWhile (fun c => c != '-') := by
  induction l with
  | nil => rfl
  | cons c cs ih =>
    by_cases hc : c = '-'
    · simp [splitOnDash, hc, List.takeWhile_cons]
    · cases h : splitOnDash cs with
      | nil => exact absurd h (splitOnDash_ne_nil cs)
      | cons a t =>
        rw [h] at ih
        simp only [List.headD_cons] at ih
        simp [splitOnDash, hc, h, List.takeWhile_cons, ih]

theorem splitDashHead_eq_specYearSegment (s : String) :
    splitDashHead s = specYearSegment s := by
  unfold splitDashHead specYearSegment
  rw [splitOnDash_headD]

theorem firstTruthy_eq_specFirstPreview (ps : List (Option String)) :
    firstTruthy ps = specFirstPreview ps := by
  induction ps with
  | nil => rfl
  | cons p rest ih =>
    by_cases h : jsTruthy p
    · simp [firstTruthy, specFirstPreview, List.find?_cons, h]
    · simp only [firstTruthy, h, if_false]
      simp [specFirstPreview, List.find?_cons, h] at ih ⊢
      exact ih

theorem firstTruthy_append_of_any (l1 l2 : List (Option String))
    (h : l1.any jsTruthy = true) :
    firstTruthy (l1 ++ l2) = firstTruthy l1 := by
  induction l1 with
  | nil => simp at h
  | cons p rest ih =>
    by_cases hp : jsTruthy p
    · simp [firstTruthy, hp]
    · simp only [List.any_cons, hp, Bool.false_or] at h
      simp [firstTruthy, hp, ih h]

theorem mapWithIndexFrom_length (f : Nat → α → β) (k : Nat) (l : List α) :
    (mapWithIndexFrom f k l).length = l.length := by
  induction l generalizing k with
  | nil => rfl
  | cons x xs ih => simp [mapWithIndexFrom, ih]

theorem lstartsWith_append (p r : List Char) : lstartsWith p (p ++ r) = true := by
  induction p with
  | nil => rfl
  | cons c cs ih => simp [lstartsWith, ih]

theorem lstartsWith_brace_cons (ps cs : List Char) (c : Char) (hc : c ≠ '{') :
    lstartsWith ('{' :: ps) (c :: cs) = false := by
  have : ('{' = c) = False := eq_false fun h => hc h.symm
  simp [lstartsWith, this]

theorem drop_length_append (a b : List Char) : (a ++ b).drop a.length = b := by
  induction a with
  | nil => rfl
  | cons c cs ih => exact ih

theorem replaceFirstL_at (ps rep a rest : List Char)
    (ha : ∀ c ∈ a, c ≠ '{') :
    replaceFirstL ('{' :: ps) rep (a ++ (('{' :: ps) ++ rest)) = a ++ (rep ++ rest) := by
  induction a with
  | nil =>
    have h1 : lstartsWith ('{' :: ps) ('{' :: (ps ++ rest)) = true := by
      have := lstartsWith_append ('{' :: ps) rest
      simp only [List.cons_append] at this
      exact this
    have h2 : ('{' :: (ps ++ rest)).drop (('{' :: ps).length) = rest := by
      have := drop_length_append ('{' :: ps) rest
      simp only [List.cons_append] at this
      exact this
    simp only [List.nil_append, List.cons_append]
    rw [replaceFirstL, if_pos h1, h2]
  | cons c a' ih =>
    have hc : c ≠ '{' := ha c (by simp)
    have ha' : ∀ x ∈ a', x ≠ '{' := fun x hx => ha x (by simp [hx])
    simp only [List.cons_append]
    rw [replaceFirstL]
    rw [if_neg ?hneg]
    case hneg =>
      rw [show c :: (a' ++ '{' :: (ps ++ rest)) = c :: (a' ++ (('{' :: ps) ++ rest)) by simp]
      simp [lstartsWith_brace_cons _ _ _ hc]
    rw [show a' ++ '{' :: (ps ++ rest) = a' ++ (('{' :: ps) ++ rest) by simp]
    rw [ih ha']

theorem loccurs_eq_false_of_no_brace (ps l : List Char)
    (hl : ∀ c ∈ l, c ≠ '{') :
    loccurs ('{' :: ps) l = false := by
  induction l with
  | nil => rfl
  | cons c cs ih =>
    have hc : c ≠ '{' := hl c (by simp)
    have hcs : ∀ x ∈ cs, x ≠ '{' := fun x hx => hl x (by simp [hx])
    simp [loccurs, lstartsWith_brace_cons _ _ _ hc, ih hcs]

theorem deezerTrack_numbers (ts : List DeezerApiTrack) (k : Nat) :
    (mapWithIndexFrom (fun index track =>
        ({ trackNumber := index + 1, name := track.title,
           duration := track.duration * 1000 } : Track)) k ts).map (fun t => t.trackNumber) =
      List.range' (k + 1) ts.length := by
  induction ts generalizing k with
  | nil => rfl
  | cons t rest ih => simp [mapWithIndexFrom, List.range'_succ, ih]

theorem deezerTrack_durations (ts : List DeezerApiTrack) (k : Nat) :
    (mapWithIndexFrom (fun index track =>
        ({ trackNumber := index + 1, name := track.title,
           duration := track.duration * 1000 } : Track)) k ts).map (fun t => t.duration) =
      ts.map (fun track => track.duration * 1000) := by
  induction ts generalizing k with
  | nil => rfl
  | cons t rest ih => simp [mapWithIndexFrom, ih]

/-! ### Claim theorems -/

/-- C7: for every Deezer album payload that carries no release-date value,
the adapter does not raise and produces an album whose `year` is the sentinel
`"Unknown"`; when a (non-empty) release date is present, `year` is the
segment of the date string before the first `-` separator. -/
theorem c7_deezer_release_date (status : Nat) (statusText : String) (body : DeezerAlbumBody) :
    (body.release_date = none →
      ∃ alb, getDeezerAlbumDetails ⟨true, status, statusText, body⟩ = Except.ok alb ∧
        alb.year = "Unknown") ∧
    (∀ s, body.release_date = some s → s ≠ "" →
      ∃ alb, getDeezerAlbumDetails ⟨true, status, statusText, body⟩ = Except.ok alb ∧
        alb.year = specYearSegment s) := by
  constructor
  · intro h
    simp only [getDeezerAlbumDetails, Bool.not_true, Bool.false_eq_true, if_false, h]
    exact ⟨_, rfl, rfl⟩
  · intro s h hs
    have hs' : (s != "") = true := by simpa using hs
    simp only [getDeezerAlbumDetails, Bool.not_true, Bool.false_eq_true, if_false, h, hs',
      if_true]
    exact ⟨_, rfl, splitDashHead_eq_specYearSegment s⟩

/-- C7 witness: a concrete payload without a release date yields
`year = "Unknown"`, and one with release date `1987-11-05` yields the
segment before the first dash. -/
theorem c7_deezer_release_date_witness :
    (∃ alb, getDeezerAlbumDetails c7RespNone = Except.ok alb ∧ alb.year = "Unknown") ∧
    (∃ alb, getDeezerAlbumDetails c7RespSome = Except.ok alb ∧
      alb.year = specYearSegment "1987-11-05") :=
  ⟨(c7_deezer_release_date 200 "OK" ⟨"T", ⟨"A", 1⟩, none, "c", "l", none⟩).1 rfl,
   (c7_deezer_release_date 200 "OK" ⟨"T", ⟨"A", 1⟩, some "1987-11-05", "c", "l", none⟩).2
     "1987-11-05" rfl (by decide)⟩

/-- C8: the Deezer adapter numbers each produced track by its 1-based
position in the platform-returned sequence (`index + 1`). -/
theorem c8_deezer_track_numbering (status : Nat) (statusText : String)
    (body : DeezerAlbumBody) (ts : DeezerTracks) (hts : body.tracks = some ts) :
    ∃ alb, getDeezerAlbumDetails ⟨true, status, statusText, body⟩ = Except.ok alb ∧
      alb.tracklist.map (fun t => t.trackNumber) = List.range' 1 ts.data.length := by
  simp only [getDeezerAlbumDetails, Bool.not_true, Bool.false_eq_true, if_false, hts]
  exact ⟨_, rfl, deezerTrack_numbers ts.data 0⟩

/-- C8 witness: a native sequence of three tracks `[A, B, C]` yields track
numbers `[1, 2, 3]`. -/
theorem c8_deezer_track_numbering_witness :
    (∃ alb, getDeezerAlbumDetails c8Resp = Except.ok alb ∧
      alb.tracklist.map (fun t => t.trackNumber) = List.range' 1 c8Tracks.data.length) ∧
    List.range' 1 c8Tracks.data.length = [1, 2, 3] :=
  ⟨c8_deezer_track_numbering 200 "OK" ⟨"T8", ⟨"A8", 2⟩, some "1999-01-01", "c", "l", some c8Tracks⟩
      c8Tracks rfl,
   by decide⟩

/-- C9: for every adapter, the search query is the percent-encoded artist
name, a space, and the percent-encoded album name when the album name is
non-empty, and the percent-encoded artist name alone when it is absent or
empty; shown on the query component of each adapter's search URL against a
definition transcribed from the spec's words (`specQuery`). -/
theorem c9_query_construction (artistName albumName : String) :
    buildQuery artistName albumName = specQuery artistName albumName ∧
    spotifySearchUrl artistName albumName =
      "https://api.spotify.com/v1/search?q=" ++ specQuery artistName albumName ++
        "&type=album&limit=5" ∧
    appleSearchUrl artistName albumName =
      "https://api.music.apple.com/v1/catalog/de/search?term=" ++
        specQuery artistName albumName ++ "&types=albums&limit=5" ∧
    deezerSearchUrl artistName albumName =
      "https://api.deezer.com/search/album?q=" ++ specQuery artistName albumName ++
        "&limit=5" := by
  have hq : buildQuery artistName albumName = specQuery artistName albumName := by
    by_cases hb : albumName = ""
    · simp [buildQuery, specQuery, hb]
    · simp [buildQuery, specQuery, hb]
  exact ⟨hq, by rw [spotifySearchUrl, hq], by rw [appleSearchUrl, hq],
    by rw [deezerSearchUrl, hq]⟩

/-- C2: for every album produced by any adapter, `previewUrl` is the preview
of the first track (in native order) whose preview field is non-empty
(for Apple Music: the url of the first element of the track's previews
list), null when none has one; the scan short-circuits, so tracks after the
first match are never consulted (appending further tracks cannot change the
result); and `[null, "X", "Y"]` yields `"X"`. -/
theorem c2_preview_first_match :
    (∀ (resp : HttpResponse SpotifyAlbumBody) (alb : Album),
      getSpotifyAlbumDetails resp = Except.ok alb →
      alb.previewUrl = specFirstPreview (resp.body.tracks.items.map (fun t => t.preview_url))) ∧
    (∀ (resp : HttpResponse AppleAlbumBody) (alb : Album) (album : AppleAlbumData)
        (rest : List AppleAlbumData) (rel : AppleRelationships) (ts : AppleTracks),
      resp.body.data = album :: rest → album.relationships = some rel → rel.tracks = some ts →
      getAppleMusicAlbumDetails resp = Except.ok alb →
      alb.previewUrl = specFirstPreview (ts.data.map applePreviewField)) ∧
    (∀ (resp : HttpResponse DeezerAlbumBody) (alb : Album) (ts : DeezerTracks),
      resp.body.tracks = some ts → getDeezerAlbumDetails resp = Except.ok alb →
      alb.previewUrl = specFirstPreview (ts.data.map (fun t => t.preview))) ∧
    (∀ l1 l2 : List (Option String), l1.any jsTruthy = true →
      firstTruthy (l1 ++ l2) = firstTruthy l1) ∧
    firstTruthy [none, some "X", some "Y"] = some "X" := by
  refine ⟨?_, ?_, ?_, firstTruthy_append_of_any, rfl⟩
  · intro resp alb h
    simp only [getSpotifyAlbumDetails] at h
    split at h
    · exact Except.noConfusion h
    · split at h
      · exact Except.noConfusion h
      · injection h with h'
        subst h'
        exact firstTruthy_eq_specFirstPreview _
  · intro resp alb album rest rel ts hdata hrel hts h
    simp only [getAppleMusicAlbumDetails, hdata, hrel, hts] at h
    split at h
    · exact Except.noConfusion h
    · injection h with h'
      subst h'
      exact firstTruthy_eq_specFirstPreview _
  · intro resp alb ts hts h
    simp only [getDeezerAlbumDetails, hts] at h
    split at h
    · exact Except.noConfusion h
    · injection h with h'
      subst h'
      exact firstTruthy_eq_specFirstPreview _

/-- C2 witness: concrete payloads for the three adapters with previews
`[null, "X", "Y"]` all produce `previewUrl = "X"` (= the spec-side first
non-empty preview), and appending to a list that already has a truthy
element does not change the scan's result. -/
theorem c2_preview_first_match_witness :
    c2SpAlbum.previewUrl =
      specFirstPreview (c2SpResp.body.tracks.items.map (fun t => t.preview_url)) ∧
    c2ApAlbum.previewUrl = specFirstPreview (c2ApTracks.data.map applePreviewField) ∧
    c2DzAlbum.previewUrl = specFirstPreview (c2DzTracks.data.map (fun t => t.preview)) ∧
    firstTruthy ([none, some "A"] ++ [some "B"]) = firstTruthy [none, some "A"] :=
  ⟨c2_preview_first_match.1 c2SpResp c2SpAlbum (by decide),
   c2_preview_first_match.2.1 c2ApResp c2ApAlbum c2ApAlbumData [] ⟨some c2ApTracks, none⟩
     c2ApTracks rfl rfl rfl (by decide),
   c2_preview_first_match.2.2.1 c2DzResp c2DzAlbum c2DzTracks rfl (by decide),
   c2_preview_first_match.2.2.2.1 [none, some "A"] [some "B"] (by decide)⟩

/-- C3: every produced track `duration` is in milliseconds: the Deezer
adapter multiplies the native seconds by 1000, while the Spotify and Apple
Music adapters pass the native millisecond values through unchanged. -/
theorem c3_duration_milliseconds :
    (∀ (resp : HttpResponse SpotifyAlbumBody) (alb : Album),
      getSpotifyAlbumDetails resp = Except.ok alb →
      alb.tracklist.map (fun t => t.duration) =
        resp.body.tracks.items.map (fun t => t.duration_ms)) ∧
    (∀ (resp : HttpResponse AppleAlbumBody) (alb : Album) (album : AppleAlbumData)
        (rest : List AppleAlbumData) (rel : AppleRelationships) (ts : AppleTracks),
      resp.body.data = album :: rest → album.relationships = some rel → rel.tracks = some ts →
      getAppleMusicAlbumDetails resp = Except.ok alb →
      alb.tracklist.map (fun t => t.duration) =
        ts.data.map (fun t => t.attributes.durationInMillis)) ∧
    (∀ (resp : HttpResponse DeezerAlbumBody) (alb : Album) (ts : DeezerTracks),
      resp.body.tracks = some ts → getDeezerAlbumDetails resp = Except.ok alb →
      alb.tracklist.map (fun t => t.duration) =
        ts.data.map (fun t => t.duration * 1000)) := by
  refine ⟨?_, ?_, ?_⟩
  · intro resp alb h
    simp only [getSpotifyAlbumDetails] at h
    split at h
    · exact Except.noConfusion h
    · split at h
      · exact Except.noConfusion h
      · injection h with h'
        subst h'
        simp only [List.map_map]
        rfl
  · intro resp alb album rest rel ts hdata hrel hts h
    simp only [getAppleMusicAlbumDetails, hdata, hrel, hts] at h
    split at h
    · exact Except.noConfusion h
    · injection h with h'
      subst h'
      simp only [List.map_map]
      rfl
  · intro resp alb ts hts h
    simp only [getDeezerAlbumDetails, hts] at h
    split at h
    · exact Except.noConfusion h
    · injection h with h'
      subst h'
      exact deezerTrack_durations ts.data 0

/-- C3 witness: a native 180000 ms Spotify track and a native 180000 ms
Apple track pass through unchanged, and a native 180-second Deezer track
maps to `duration = 180000`. -/
theorem c3_duration_milliseconds_witness :
    c3SpAlbum.tracklist.map (fun t => t.duration) =
      c3SpResp.body.tracks.items.map (fun t => t.duration_ms) ∧
    c3ApAlbum.tracklist.map (fun t => t.duration) =
      c3ApTracks.data.map (fun t => t.attributes.durationInMillis) ∧
    c3DzAlbum.tracklist.map (fun t => t.duration) =
      c3DzTracks.data.map (fun t => t.duration * 1000) ∧
    c3DzAlbum.tracklist.map (fun t => t.duration) = [180000] :=
  ⟨c3_duration_milliseconds.1 c3SpResp c3SpAlbum (by decide),
   c3_duration_milliseconds.2.1 c3ApResp c3ApAlbum c3ApAlbumData [] ⟨some c3ApTracks, none⟩
     c3ApTracks rfl rfl rfl (by decide),
   c3_duration_milliseconds.2.2 c3DzResp c3DzAlbum c3DzTracks rfl (by decide),
   (c3_duration_milliseconds.2.2 c3DzResp c3DzAlbum c3DzTracks rfl (by decide)).trans
     (by decide)⟩

/-- C4: both credentials are acquired before any adapter search runs.  If
the Spotify token acquisition fails, the whole aggregation fails with the
Spotify authentication error, for EVERY adapter environment (so no adapter
result can influence the outcome and no partial result exists); if the
token succeeds but the Apple Music signing fails, the aggregation fails
with the Apple Music authentication error, again for every adapter
environment. -/
theorem c4_credentials_before_search :
    (∀ (artistName albumName : String) (env : AggEnv),
      jsTruthy env.spotifyTokenResp.body.access_token = false →
      searchAllPlatforms artistName albumName env =
        Except.error (.thrown spotifyAuthErrorMessage)) ∧
    (∀ (artistName albumName : String) (env : AggEnv) (msg : String),
      jsTruthy env.spotifyTokenResp.body.access_token = true →
      env.appleSignResult = Except.error msg →
      searchAllPlatforms artistName albumName env =
        Except.error (.thrown ("Fehler beim Generieren des Apple Music Tokens: " ++ msg))) := by
  constructor
  · intro a b env h
    have hs : getSpotifyAccessToken env.spotifyTokenResp =
        Except.error (.thrown spotifyAuthErrorMessage) := by
      unfold getSpotifyAccessToken
      cases hat : env.spotifyTokenResp.body.access_token with
      | none => rfl
      | some t =>
        rw [hat] at h
        simp only [jsTruthy] at h
        simp [h]
    simp [searchAllPlatforms, hs]
  · intro a b env msg h hmsg
    obtain ⟨t, ht⟩ : ∃ t, getSpotifyAccessToken env.spotifyTokenResp = Except.ok t := by
      unfold getSpotifyAccessToken
      cases hat : env.spotifyTokenResp.body.access_token with
      | none => rw [hat] at h; simp [jsTruthy] at h
      | some t =>
        rw [hat] at h
        simp only [jsTruthy] at h
        exact ⟨t, by simp [h]⟩
    simp [searchAllPlatforms, ht, getAppleMusicToken, hmsg]

/-- C4 witness: an environment whose token response has no access token
fails with the Spotify authentication error; one whose Apple Music key
cannot be read fails with the Apple Music authentication error — in both
cases regardless of the (fully healthy) adapter environments. -/
theorem c4_credentials_before_search_witness :
    searchAllPlatforms "a" "" c4EnvA = Except.error (.thrown spotifyAuthErrorMessage) ∧
    searchAllPlatforms "a" "" c4EnvB =
      Except.error (.thrown ("Fehler beim Generieren des Apple Music Tokens: " ++
        "ENOENT: no such file")) :=
  ⟨c4_credentials_before_search.1 "a" "" c4EnvA rfl,
   c4_credentials_before_search.2 "a" "" c4EnvB "ENOENT: no such file" (by decide) rfl⟩

/-- C5: every successful `searchAllPlatforms` call returns a result with
exactly the three platform keys (the `SearchResults` structure has exactly
the fields `spotify`, `appleMusic`, `deezer`) in which each platform's
sequence holds at most 5 albums. -/
theorem c5_result_cap (artistName albumName : String) (env : AggEnv) (r : SearchResults)
    (h : searchAllPlatforms artistName albumName env = Except.ok r) :
    r.spotify.length ≤ 5 ∧ r.appleMusic.length ≤ 5 ∧ r.deezer.length ≤ 5 := by
  simp only [searchAllPlatforms] at h
  split at h
  · exact Except.noConfusion h
  · split at h
    · exact Except.noConfusion h
    · split at h
      · exact Except.noConfusion h
      · split at h
        · exact Except.noConfusion h
        · split at h
          · exact Except.noConfusion h
          · split at h
            · exact Except.noConfusion h
            · injection h with h'
              subst h'
              exact ⟨List.length_take_le _ _, List.length_take_le _ _,
                List.length_take_le _ _⟩

/-- C5 witness: a fully successful concrete aggregation run returns three
singleton lists, all within the cap. -/
theorem c5_result_cap_witness :
    c5Result.spotify.length ≤ 5 ∧ c5Result.appleMusic.length ≤ 5 ∧
      c5Result.deezer.length ≤ 5 :=
  c5_result_cap "Coldplay" "" c5Env c5Result (by decide)

/-- C10 (implicit): a Deezer search that succeeds over HTTP but matches
zero albums (missing or empty result list) makes the Deezer adapter throw
`Keine Alben gefunden` instead of returning an empty sequence, and the
whole aggregation then fails with that error even when the tokens and the
Spotify and Apple Music branches all succeed. -/
theorem c10_deezer_zero_results :
    (∀ (artistName albumName : String) (env : DeezerEnv),
      (env.searchResp (deezerSearchUrl artistName albumName)).ok = true →
      ((env.searchResp (deezerSearchUrl artistName albumName)).body.data = none ∨
        (env.searchResp (deezerSearchUrl artistName albumName)).body.data = some []) →
      searchDeezerAlbums artistName albumName env =
        Except.error (.thrown "Keine Alben gefunden")) ∧
    (∀ (artistName albumName : String) (env : AggEnv) (tok atok : String)
        (sAlbums aAlbums : List Album),
      getSpotifyAccessToken env.spotifyTokenResp = Except.ok tok → tok ≠ "" →
      getAppleMusicToken env.appleSignResult = Except.ok atok → atok ≠ "" →
      searchSpotifyAlbums artistName albumName tok env.spotify = Except.ok sAlbums →
      searchAppleMusicAlbums artistName albumName atok env.apple = Except.ok aAlbums →
      (env.deezer.searchResp (deezerSearchUrl artistName albumName)).ok = true →
      (env.deezer.searchResp (deezerSearchUrl artistName albumName)).body.data = some [] →
      searchAllPlatforms artistName albumName env =
        Except.error (.thrown "Keine Alben gefunden")) := by
  constructor
  · intro a b env hok hdata
    simp only [searchDeezerAlbums, hok, Bool.not_true, Bool.false_eq_true, if_false]
    rcases hdata with h | h
    · simp [h]
    · simp [h]
  · intro a b env tok atok sAlbums aAlbums htok htokne hatok hatokne hsp hap hdok hddata
    have hdz : searchDeezerAlbums a b env.deezer =
        Except.error (.thrown "Keine Alben gefunden") := by
      simp only [searchDeezerAlbums, hdok, Bool.not_true, Bool.false_eq_true, if_false,
        hddata]
      simp
    simp [searchAllPlatforms, htok, hatok, htokne, hatokne, hsp, hap, hdz]

/-- C10 witness: a concrete zero-match Deezer search fails with
`Keine Alben gefunden`, and a concrete aggregation in which Spotify and
Apple Music succeed (with empty hit lists) still fails with that error. -/
theorem c10_deezer_zero_results_witness :
    searchDeezerAlbums "a" "" c10DzEnv = Except.error (.thrown "Keine Alben gefunden") ∧
    searchAllPlatforms "a" "" c10AggEnv = Except.error (.thrown "Keine Alben gefunden") :=
  ⟨c10_deezer_zero_results.1 "a" "" c10DzEnv rfl (Or.inr rfl),
   c10_deezer_zero_results.2 "a" "" c10AggEnv "tok" "atok" [] [] (by decide) (by decide) rfl
     (by decide) (by decide) (by decide) rfl rfl⟩

/-- C1 counterexample: the claim is FALSE for the Spotify adapter's catalog
search, which never checks the HTTP status.  With a search response whose
status is non-success (503) but whose body still parses into an albums
container, `searchSpotifyAlbums` raises nothing and returns an album
sequence. -/
theorem c1_counterexample_spotify_search_ignores_status :
    (c1CexEnv.searchResp (spotifySearchUrl "Coldplay" "")).ok = false ∧
    searchSpotifyAlbums "Coldplay" "" "token" c1CexEnv = Except.ok [c1CexAlbum] :=
  ⟨rfl, by decide⟩

/-- C1 (amended): a non-success HTTP status on any per-album detail request
makes each of the three adapters throw an error whose message names the
platform and carries the upstream status text; the same holds for the
Apple Music and Deezer catalog searches, and a failing detail request
aborts the Spotify adapter's whole search — but the Spotify catalog search
itself does not check the HTTP status (see the counterexample). -/
theorem c1_amended_http_error_handling :
    (∀ resp : HttpResponse SpotifyAlbumBody, resp.ok = false →
      getSpotifyAlbumDetails resp =
        Except.error (.thrown ("Spotify API returned an error: " ++ resp.statusText))) ∧
    (∀ resp : HttpResponse AppleAlbumBody, resp.ok = false →
      getAppleMusicAlbumDetails resp =
        Except.error (.thrown ("Apple Music API request failed: " ++ resp.statusText))) ∧
    (∀ resp : HttpResponse DeezerAlbumBody, resp.ok = false →
      getDeezerAlbumDetails resp =
        Except.error (.thrown ("Deezer API request failed: " ++ resp.statusText))) ∧
    (∀ (artistName albumName developerToken : String) (env : AppleEnv),
      (env.searchResp (appleSearchUrl artistName albumName)).ok = false →
      searchAppleMusicAlbums artistName albumName developerToken env =
        Except.error (.thrown ("Apple Music API request failed: " ++
          (env.searchResp (appleSearchUrl artistName albumName)).statusText))) ∧
    (∀ (artistName albumName : String) (env : DeezerEnv),
      (env.searchResp (deezerSearchUrl artistName albumName)).ok = false →
      searchDeezerAlbums artistName albumName env =
        Except.error (.thrown ("Deezer API request failed: " ++
          (env.searchResp (deezerSearchUrl artistName albumName)).statusText))) ∧
    (∀ (artistName albumName accessToken : String) (env : SpotifyEnv)
        (container : SpotifyAlbumsContainer) (item : SpotifySearchItem)
        (rest : List SpotifySearchItem),
      (env.searchResp (spotifySearchUrl artistName albumName)).body.albums = some container →
      container.items = item :: rest →
      (env.detailResp item.id).ok = false →
      searchSpotifyAlbums artistName albumName accessToken env =
        Except.error (.thrown ("Spotify API returned an error: " ++
          (env.detailResp item.id).statusText))) := by
  refine ⟨?_, ?_, ?_, ?_, ?_, ?_⟩
  · intro resp h
    simp [getSpotifyAlbumDetails, h]
  · intro resp h
    simp [getAppleMusicAlbumDetails, h]
  · intro resp h
    simp [getDeezerAlbumDetails, h]
  · intro a b tok env h
    simp [searchAppleMusicAlbums, h]
  · intro a b env h
    simp [searchDeezerAlbums, h]
  · intro a b tok env container item rest halb hitems hdet
    have hd : getSpotifyAlbumDetails (env.detailResp item.id) =
        Except.error (.thrown ("Spotify API returned an error: " ++
          (env.detailResp item.id).statusText)) := by
      simp [getSpotifyAlbumDetails, hdet]
    simp [searchSpotifyAlbums, halb, hitems, mapExcept, hd]

/-- C1 witness (for the amended claim): concrete non-success responses make
every detail fetch, the Apple Music and Deezer searches, and (through a
failing detail call) the Spotify search, fail with the platform-named
message carrying the upstream status text. -/
theorem c1_amended_http_error_handling_witness :
    getSpotifyAlbumDetails c1wSpotifyDetailResp =
      Except.error (.thrown ("Spotify API returned an error: " ++ "Internal Server Error")) ∧
    getAppleMusicAlbumDetails c1wAppleDetailResp =
      Except.error (.thrown ("Apple Music API request failed: " ++ "Service Unavailable")) ∧
    getDeezerAlbumDetails c1wDeezerDetailResp =
      Except.error (.thrown ("Deezer API request failed: " ++ "Not Found")) ∧
    searchAppleMusicAlbums "a" "" "tok" c1wAppleEnv =
      Except.error (.thrown ("Apple Music API request failed: " ++ "Service Unavailable")) ∧
    searchDeezerAlbums "a" "" c1wDeezerEnv =
      Except.error (.thrown ("Deezer API request failed: " ++ "Service Unavailable")) ∧
    searchSpotifyAlbums "a" "" "tok" c1wSpotifyPropEnv =
      Except.error (.thrown ("Spotify API returned an error: " ++ "Internal Server Error")) :=
  ⟨c1_amended_http_error_handling.1 c1wSpotifyDetailResp rfl,
   c1_amended_http_error_handling.2.1 c1wAppleDetailResp rfl,
   c1_amended_http_error_handling.2.2.1 c1wDeezerDetailResp rfl,
   c1_amended_http_error_handling.2.2.2.1 "a" "" "tok" c1wAppleEnv rfl,
   c1_amended_http_error_handling.2.2.2.2.1 "a" "" c1wDeezerEnv rfl,
   c1_amended_http_error_handling.2.2.2.2.2 "a" "" "tok" c1wSpotifyPropEnv ⟨[⟨"x1"⟩]⟩ ⟨"x1"⟩
     [] rfl rfl rfl⟩

/-- C6 counterexample: the claim is FALSE for artwork templates that repeat
a placeholder, because JS `String.replace` with a string pattern replaces
only the first occurrence: the template `a{w}b{w}c{h}d` leaves a `{w}` in
the produced album's cover URL. -/
theorem c6_counterexample_repeated_placeholder :
    c6CoverPlaceholderRemains (getAppleMusicAlbumDetails c6Resp) = true := by decide

/-- C6 (amended): the Apple Music adapter substitutes the FIRST occurrence
of `\x7bw\x7d` and of `\x7bh\x7d` in the artwork URL with the literal `300`;
for templates containing each placeholder exactly once (the shape of Apple
artwork templates, written here as brace-free pieces around one `\x7bw\x7d`
and one `\x7bh\x7d`), the produced album's cover URL contains no remaining
size placeholder substring. -/
theorem c6_amended_cover_templating (a b c : List Char)
    (ha : ∀ ch ∈ a, ch ≠ '{') (hb : ∀ ch ∈ b, ch ≠ '{') (hc : ∀ ch ∈ c, ch ≠ '{')
    (status : Nat) (statusText : String) (album : AppleAlbumData)
    (rest : List AppleAlbumData)
    (hurl : album.attributes.artwork.url =
      ⟨a ++ ("{w}".data ++ (b ++ ("{h}".data ++ c)))⟩) :
    ∃ alb s,
      getAppleMusicAlbumDetails ⟨true, status, statusText, ⟨album :: rest⟩⟩ =
        Except.ok alb ∧
      alb.coverUrl = some s ∧
      s = ⟨a ++ ("300".data ++ (b ++ ("300".data ++ c)))⟩ ∧
      loccurs "{w}".data s.data = false ∧
      loccurs "{h}".data s.data = false := by
  have h300 : ∀ ch ∈ "300".data, ch ≠ '{' := by decide
  have hw : ("{w}".data : List Char) = '{' :: ['w', '}'] := by decide
  have hh : ("{h}".data : List Char) = '{' :: ['h', '}'] := by decide
  have hfull : ∀ ch ∈ a ++ ("300".data ++ (b ++ ("300".data ++ c))), ch ≠ '{' := by
    intro ch hch
    rcases List.mem_append.mp hch with h1 | h2
    · exact ha ch h1
    rcases List.mem_append.mp h2 with h3 | h4
    · exact h300 ch h3
    rcases List.mem_append.mp h4 with h5 | h6
    · exact hb ch h5
    rcases List.mem_append.mp h6 with h7 | h8
    · exact h300 ch h7
    · exact hc ch h8
  have hkey : appleCoverUrl album.attributes.artwork.url =
      ⟨a ++ ("300".data ++ (b ++ ("300".data ++ c)))⟩ := by
    rw [hurl]
    unfold appleCoverUrl jsReplace
    show (⟨replaceFirstL "{h}".data "300".data
      (replaceFirstL "{w}".data "300".data
        (a ++ ("{w}".data ++ (b ++ ("{h}".data ++ c)))))⟩ : String) = _
    have step1 : replaceFirstL "{w}".data "300".data
        (a ++ ("{w}".data ++ (b ++ ("{h}".data ++ c)))) =
        a ++ ("300".data ++ (b ++ ("{h}".data ++ c))) := by
      rw [hw]
      exact replaceFirstL_at ['w', '}'] "300".data a (b ++ ("{h}".data ++ c)) ha
    have hfree : ∀ ch ∈ a ++ ("300".data ++ b), ch ≠ '{' := by
      intro ch hch
      rcases List.mem_append.mp hch with h1 | h2
      · exact ha ch h1
      rcases List.mem_append.mp h2 with h3 | h4
      · exact h300 ch h3
      · exact hb ch h4
    have step2 : replaceFirstL "{h}".data "300".data
        (a ++ ("300".data ++ (b ++ ("{h}".data ++ c)))) =
        a ++ ("300".data ++ (b ++ ("300".data ++ c))) := by
      have hstep := replaceFirstL_at ['h', '}'] "300".data (a ++ ("300".data ++ b)) c hfree
      calc replaceFirstL "{h}".data "300".data
            (a ++ ("300".data ++ (b ++ ("{h}".data ++ c))))
          = replaceFirstL ('{' :: ['h', '}']) "300".data
            ((a ++ ("300".data ++ b)) ++ (('{' :: ['h', '}']) ++ c)) := by
            rw [← hh]
            simp [List.append_assoc]
        _ = (a ++ ("300".data ++ b)) ++ ("300".data ++ c) := hstep
        _ = a ++ ("300".data ++ (b ++ ("300".data ++ c))) := by
            simp [List.append_assoc]
    rw [step1, step2]
  refine ⟨_, appleCoverUrl album.attributes.artwork.url, rfl, rfl, hkey, ?_, ?_⟩
  · rw [hkey, hw]
    exact loccurs_eq_false_of_no_brace ['w', '}'] _ hfull
  · rw [hkey, hh]
    exact loccurs_eq_false_of_no_brace ['h', '}'] _ hfull

/-- C6 witness (for the amended claim): the concrete single-occurrence
template `left\x7bw\x7dmid\x7bh\x7dright` maps to a cover URL with both
placeholders substituted by `300` and none remaining. -/
theorem c6_amended_cover_templating_witness :
    ∃ alb s,
      getAppleMusicAlbumDetails c6wResp = Except.ok alb ∧
      alb.coverUrl = some s ∧
      s = ⟨"left".data ++ ("300".data ++ ("mid".data ++ ("300".data ++ "right".data)))⟩ ∧
      loccurs "{w}".data s.data = false ∧
      loccurs "{h}".data s.data = false :=
  c6_amended_cover_templating "left".data "mid".data "right".data (by decide) (by decide)
    (by decide) 200 "OK" c6wAlbumData [] (by decide)

end MusicSearch
